import Mathlib

/-
Verification of the language-resolution and request-orchestration flow of the
voice-translator application (src/app.py).

The embedding models the user-triggered operations of the app (listen_speech,
translate_text, speak_text with its two button wrappers, view_history) as pure
state transformers over the Streamlit session state.  External capabilities
(microphone capture, Google speech recognition, googletrans detection and
translation, gTTS synthesis) and the external language tables (googletrans
LANGUAGES, gTTS tts_langs) are parameters gathered in an `Env` record.  Each
operation additionally returns the list of upstream capability invocations it
performed, so that claims of the form "invokes recognition exactly once" and
"never invokes the synthesis service" are expressible.
-/

namespace VoiceTranslator

/-- A captured raw audio sample (opaque payload of the capture capability). -/
structure AudioSample where
  ident : Nat
deriving DecidableEq

/-- A synthesized compressed-audio byte stream (opaque payload of gTTS). -/
structure AudioBytes where
  ident : Nat
deriving DecidableEq

/-- The request the code sends to the audio-capture capability: the
ambient-noise calibration duration (line 44, `duration=1.5`, stored in tenths
of a second) and the two bounds of `recognizer.listen` (line 47):
`timeout` (max wait for speech to begin) and `phrase_time_limit`
(max wait for speech to end), in seconds. -/
structure CaptureRequest where
  calibrationTenths : Nat
  timeoutSeconds : Nat
  phraseTimeLimitSeconds : Nat
deriving DecidableEq

/-- Modelled from the spec: the audio-capture capability itself (the
speech_recognition library) is external to src/.  Per the spec, capture blocks
with a bounded wait for speech to begin and a bounded wait for speech to end,
and the expiry of either bound surfaces to the caller as the wait-timeout
failure that src/app.py line 79 catches as `sr.WaitTimeoutError`. -/
inductive CaptureError where
  | startTimeout
  | phraseTimeout
deriving DecidableEq

/-- Failure modes of `recognizer.recognize_google` as caught by src/app.py
lines 81-86: `sr.UnknownValueError`, `sr.RequestError`, or any other
exception. -/
inductive RecognitionError where
  | unknownValue
  | requestError
  | other (msg : String)
deriving DecidableEq

/-- Result of `Translator().detect`: the code reads only `.lang`
(src/app.py line 69); the confidence is carried but unused. -/
structure DetectResult where
  lang : String
  confidence : Nat
deriving DecidableEq

/-- Result of `Translator().translate`: the code reads `.text` and `.src`
(src/app.py lines 106, 109). -/
structure TranslateServiceResult where
  text : String
  src : String
deriving DecidableEq

/-- One entry of `st.session_state.translation_history`: the Python code
appends the 5-element list
`[timestamp, src_lang_name, tgt_lang_name, text, result.text]`
(src/app.py lines 111-114). -/
structure HistoryEntry where
  timestamp : String
  src_lang_name : String
  tgt_lang_name : String
  input_text : String
  output_text : String
deriving DecidableEq

/-- The Streamlit session state fields that the modelled operations read or
write (src/app.py lines 24-29 and 175-182). -/
structure SessionState where
  detected_lang_code : String
  translation_history : List HistoryEntry
  audio_data : Option AudioBytes
  audio_lang : Option String
  input_text : String
  translated_text : String
  input_lang : String
  target_lang : String
deriving DecidableEq

/-- An invocation of an upstream capability, recorded in order. -/
inductive CallEvent where
  | capture (req : CaptureRequest)
  | recognize (hint : Option String)
  | detectLang (text : String)
  | translateCall (text : String) (src : String) (dest : String)
  | synthesize (text : String) (lang : String)
deriving DecidableEq

/-- The external capabilities and external language tables the code calls
into.  `lang_name_to_code` models `LANG_NAME_TO_CODE` (title-cased language
name to code, src/app.py line 21), `languages` models googletrans `LANGUAGES`
(code to lower-case name), `tts_supported` models the key set of
`tts_langs()` (line 20), and `now` models the timestamp string of
`datetime.now().strftime(...)` (line 112). -/
structure Env where
  capture : CaptureRequest → Except CaptureError AudioSample
  recognize_google : AudioSample → Option String → Except RecognitionError String
  detect : String → Except String DetectResult
  translate : String → String → String → Except String TranslateServiceResult
  gtts : String → String → Except String AudioBytes
  tts_supported : List String
  lang_name_to_code : List (String × String)
  languages : List (String × String)
  now : String

/-- Python `dict` lookup returning an optional value (`d.get(k)` shape);
dictionaries are modelled as association lists with distinct keys. -/
def dictLookup (d : List (String × String)) (k : String) : Option String :=
  (d.find? (fun p => p.1 == k)).map (fun p => p.2)

/-- Python `d.get(k, dflt)`. -/
def dictGet (d : List (String × String)) (k : String) (dflt : String) : String :=
  (dictLookup d k).getD dflt

/-- Dropping leading whitespace characters from a character list. -/
def dropWhitespaceLeft : List Char → List Char
  | [] => []
  | c :: cs => if c.isWhitespace then dropWhitespaceLeft cs else c :: cs

/-- Python `str.strip()`: whitespace removed from both ends. -/
def pyStrip (s : String) : String :=
  ⟨((dropWhitespaceLeft s.data).reverse |> dropWhitespaceLeft).reverse⟩

/-- Python `str.title()`: an alphabetic character is upper-cased when the
previous character is not alphabetic and lower-cased otherwise. -/
def pyTitleAux : Bool → List Char → List Char
  | _, [] => []
  | prevAlpha, c :: cs =>
    (if c.isAlpha then (if prevAlpha then c.toLower else c.toUpper) else c)
      :: pyTitleAux c.isAlpha cs

/-- Python `str.title()` lifted to strings. -/
def pyTitle (s : String) : String :=
  ⟨pyTitleAux false s.data⟩

/-- The single-entry remap table of src/app.py lines 60-61: the generic code
`te` must be sent to the recognizer as the country-specific `te-IN`. -/
def remapForRecognition (c : String) : String :=
  if c = "te" then "te-IN" else c

/-- The characters before the first dash (the whole list when no dash
occurs). -/
def takeUntilDash : List Char → List Char
  | [] => []
  | c :: cs => if c = '-' then [] else c :: takeUntilDash cs

/-- Python `lang_code.split("-")[0]` (src/app.py line 63): the base code with
any country suffix stripped. -/
def baseCode (c : String) : String :=
  ⟨takeUntilDash c.data⟩

/-- The concrete capture request built by `listen_speech`:
`adjust_for_ambient_noise(source, duration=1.5)` then
`recognizer.listen(source, timeout=10, phrase_time_limit=25)`
(src/app.py lines 44 and 47). -/
def listenRequest : CaptureRequest :=
  { calibrationTenths := 15, timeoutSeconds := 10, phraseTimeLimitSeconds := 25 }

/-- The user-visible outcome of `listen_speech`: the success banner or one of
the four error messages of src/app.py lines 79-86. -/
inductive ListenOutcome where
  | ok
  | noSpeechDetected
  | couldNotUnderstand
  | serviceUnavailable
  | otherError (msg : String)
deriving DecidableEq

/-- Mapping of a recognition failure to the handler that catches it
(src/app.py lines 81-86). -/
def recErrorOutcome : RecognitionError → ListenOutcome
  | .unknownValue => .couldNotUnderstand
  | .requestError => .serviceUnavailable
  | .other msg => .otherError msg

/-- Outcome, final session state and upstream-call trace of one operation. -/
structure ListenResult where
  outcome : ListenOutcome
  state : SessionState
  calls : List CallEvent
deriving DecidableEq

/-- src/app.py lines 52-56: resolve the selected input language to a code,
with the `auto` sentinel for the Auto Detect entry and as the `.get` default
for a name absent from the table. -/
def resolveSelectedCode (env : Env) (selected_input_lang : String) : String :=
  if selected_input_lang = "Auto Detect" then "auto"
  else dictGet env.lang_name_to_code selected_input_lang "auto"

/-- src/app.py lines 59-63 and 75: the explicit branch.  Remap `te` to
`te-IN`, recognize once with the resulting code; on success store the base
code and the transcript; a failure maps to the handlers of lines 81-86 and
leaves the state untouched. -/
def recognizeExplicit (env : Env) (s : SessionState) (sample : AudioSample)
    (lang_code : String) : ListenResult :=
  let sent := remapForRecognition lang_code
  match env.recognize_google sample (some sent) with
  | .error e =>
    ⟨recErrorOutcome e, s, [.capture listenRequest, .recognize (some sent)]⟩
  | .ok text =>
    ⟨.ok,
      { s with detected_lang_code := baseCode sent, input_text := text },
      [.capture listenRequest, .recognize (some sent)]⟩

/-- src/app.py lines 64-73 and 75: the auto branch.  Recognize once with no
hint, detect the language of the raw transcript, store the detected code,
then try a second recognition with the detected code, falling back to the raw
transcript if the second pass fails for any reason (inner try of lines
70-73).  A failure of the first pass or of detection maps to the handlers of
lines 81-86 and leaves the state untouched. -/
def recognizeAuto (env : Env) (s : SessionState) (sample : AudioSample) :
    ListenResult :=
  match env.recognize_google sample none with
  | .error e =>
    ⟨recErrorOutcome e, s, [.capture listenRequest, .recognize none]⟩
  | .ok raw_text =>
    match env.detect raw_text with
    | .error msg =>
      ⟨.otherError msg, s,
        [.capture listenRequest, .recognize none, .detectLang raw_text]⟩
    | .ok detected =>
      let s1 := { s with detected_lang_code := detected.lang }
      match env.recognize_google sample (some detected.lang) with
      | .ok text =>
        ⟨.ok, { s1 with input_text := text },
          [.capture listenRequest, .recognize none, .detectLang raw_text,
            .recognize (some detected.lang)]⟩
      | .error _ =>
        ⟨.ok, { s1 with input_text := raw_text },
          [.capture listenRequest, .recognize none, .detectLang raw_text,
            .recognize (some detected.lang)]⟩

/-- src/app.py lines 32-86, `listen_speech`.  Capture the audio (a
wait-timeout leaves the state untouched and reports the no-speech error),
resolve the selected language code and dispatch on whether it is the `auto`
sentinel (line 59). -/
def listen_speech (env : Env) (s : SessionState) : ListenResult :=
  match env.capture listenRequest with
  | .error _ => ⟨.noSpeechDetected, s, [.capture listenRequest]⟩
  | .ok sample =>
    let lang_code := resolveSelectedCode env s.input_lang
    if lang_code ≠ "auto" then recognizeExplicit env s sample lang_code
    else recognizeAuto env s sample

/-- The user-visible outcome of `translate_text`: success, one of the two
warnings (src/app.py lines 92, 97), the unhandled KeyError escaping from
line 100 (it is raised outside the try block of lines 102-119), or the
handled upstream failure of line 119. -/
inductive TranslateOutcome where
  | ok
  | noInputWarning
  | noTargetWarning
  | keyErrorCrash (key : String)
  | translationError (msg : String)
deriving DecidableEq

/-- Outcome, final session state and upstream-call trace of `translate_text`. -/
structure TranslateResult where
  outcome : TranslateOutcome
  state : SessionState
  calls : List CallEvent
deriving DecidableEq

/-- src/app.py lines 89-119, `translate_text`.  Strip the input text and warn
on blank (lines 90-93); strip the target-language name and warn on blank
(lines 95-98); look the target name up in `LANG_NAME_TO_CODE` with the bare
subscript of line 100, which raises an uncaught KeyError when the name is
absent; call the translation service, store the translated text and append
the single history entry built from the upstream-reported source code
`result.src` (lines 102-114); any upstream failure is caught at line 118 and
leaves the state untouched. -/
def translate_text (env : Env) (s : SessionState) : TranslateResult :=
  let text := pyStrip s.input_text
  if text = "" then ⟨.noInputWarning, s, []⟩
  else
    let tgt_full := pyStrip s.target_lang
    if tgt_full = "" then ⟨.noTargetWarning, s, []⟩
    else
      match dictLookup env.lang_name_to_code tgt_full with
      | none => ⟨.keyErrorCrash tgt_full, s, []⟩
      | some dest_code =>
        match env.translate text s.detected_lang_code dest_code with
        | .error msg =>
          ⟨.translationError msg, s,
            [.translateCall text s.detected_lang_code dest_code]⟩
        | .ok result =>
          let src_lang_name := pyTitle (dictGet env.languages result.src "Unknown")
          let tgt_lang_name := pyTitle (dictGet env.languages dest_code "Unknown")
          let entry : HistoryEntry :=
            ⟨env.now, src_lang_name, tgt_lang_name, text, result.text⟩
          ⟨.ok,
            { s with
                translated_text := result.text,
                translation_history := s.translation_history ++ [entry] },
            [.translateCall text s.detected_lang_code dest_code]⟩

/-- The user-visible outcome of `speak_text` and its wrappers: success, the
unsupported-language warning of src/app.py line 135, the handled upstream
failure of line 137, the no-text info messages of lines 144 and 153, or the
uncaught KeyError escaping from line 150. -/
inductive SpeakOutcome where
  | ok
  | unsupportedWarning (lang : String)
  | ttsError (msg : String)
  | noTextInfo
  | keyErrorCrash (key : String)
deriving DecidableEq

/-- Outcome, final session state and upstream-call trace of a synthesis
operation. -/
structure SpeakResult where
  outcome : SpeakOutcome
  state : SessionState
  calls : List CallEvent
deriving DecidableEq

/-- src/app.py lines 122-137, `speak_text`.  When the code is a key of
`TTS_SUPPORTED`, invoke gTTS and store the audio buffer and its language
(lines 124-132); an upstream failure is caught at line 136.  Otherwise warn
without any upstream call (line 135). -/
def speak_text (env : Env) (s : SessionState) (text : String) (lang_code : String) :
    SpeakResult :=
  if lang_code ∈ env.tts_supported then
    match env.gtts text lang_code with
    | .ok buf =>
      ⟨.ok,
        { s with audio_data := some buf, audio_lang := some lang_code },
        [.synthesize text lang_code]⟩
    | .error msg => ⟨.ttsError msg, s, [.synthesize text lang_code]⟩
  else ⟨.unsupportedWarning lang_code, s, []⟩

/-- src/app.py lines 139-144, `speak_input`. -/
def speak_input (env : Env) (s : SessionState) : SpeakResult :=
  let text := pyStrip s.input_text
  if text ≠ "" ∧ s.detected_lang_code ∈ env.tts_supported then
    speak_text env s text s.detected_lang_code
  else ⟨.noTextInfo, s, []⟩

/-- src/app.py lines 146-153, `speak_output`.  The target-name lookup at
line 150 is again a bare subscript that raises an uncaught KeyError when the
name is absent. -/
def speak_output (env : Env) (s : SessionState) : SpeakResult :=
  let text := pyStrip s.translated_text
  let tgt_full := pyStrip s.target_lang
  if text ≠ "" ∧ tgt_full ≠ "" then
    match dictLookup env.lang_name_to_code tgt_full with
    | some dest_code => speak_text env s text dest_code
    | none => ⟨.keyErrorCrash tgt_full, s, []⟩
  else ⟨.noTextInfo, s, []⟩

/-- src/app.py lines 156-167, `view_history`: a read-only rendering of the
history list. -/
def view_history (s : SessionState) : List String × SessionState :=
  if s.translation_history = [] then (["No translations yet."], s)
  else
    (s.translation_history.map
      (fun e => "[" ++ e.timestamp ++ "] " ++ e.src_lang_name ++ " -> " ++ e.tgt_lang_name),
      s)

/-- The five user-triggered actions of the interface (src/app.py
lines 199-242). -/
inductive Operation where
  | speakButton
  | translateButton
  | speakInputButton
  | speakOutputButton
  | viewHistoryButton
deriving DecidableEq

/-- The session-state transition performed by one user action. -/
def stepState (env : Env) : Operation → SessionState → SessionState
  | .speakButton, s => (listen_speech env s).state
  | .translateButton, s => (translate_text env s).state
  | .speakInputButton, s => (speak_input env s).state
  | .speakOutputButton, s => (speak_output env s).state
  | .viewHistoryButton, s => (view_history s).2

/-- Recognising the recognition events in a call trace. -/
def isRecognizeCall : CallEvent → Bool
  | .recognize _ => true
  | _ => false

/-- A fresh session state as initialised by src/app.py lines 24-29 and
175-182. -/
def state0 : SessionState :=
  { detected_lang_code := "auto"
    translation_history := []
    audio_data := none
    audio_lang := none
    input_text := ""
    translated_text := ""
    input_lang := "Auto Detect"
    target_lang := "English" }

/-- A concrete environment exercising the auto-mode fallback: the unhinted
first pass succeeds, detection reports Spanish, and the second hinted pass
fails. -/
def envAuto : Env :=
  { capture := fun _ => .ok ⟨0⟩
    recognize_google := fun _ hint =>
      match hint with
      | none => .ok "hola"
      | some _ => .error .requestError
    detect := fun _ => .ok ⟨"es", 99⟩
    translate := fun _ _ _ => .error "service unavailable"
    gtts := fun _ _ => .error "service unavailable"
    tts_supported := []
    lang_name_to_code := []
    languages := [("es", "spanish")]
    now := "2024-01-01 00:00:00" }

/-- A concrete environment whose capture times out waiting for speech. -/
def envTimeout : Env :=
  { envAuto with capture := fun _ => .error .startTimeout }

/-- A concrete environment whose capture expires on the phrase bound. -/
def envPhraseTimeout : Env :=
  { envAuto with capture := fun _ => .error .phraseTimeout }

/-- A concrete environment and state exercising the Telugu remap: the
selection is Telugu, whose code `te` is remapped to `te-IN` for the
recognition call. -/
def envTelugu : Env :=
  { envAuto with
    recognize_google := fun _ hint =>
      match hint with
      | some _ => .ok "namaste"
      | none => .error .unknownValue
    lang_name_to_code := [("Telugu", "te"), ("Spanish", "es")]
    languages := [("te", "telugu"), ("es", "spanish")] }

/-- The session state with Telugu selected as the input language. -/
def stateTelugu : SessionState :=
  { state0 with input_lang := "Telugu" }

/-- A concrete environment for the translation and synthesis claims: the
translation service reports source `es` whatever was requested, synthesis
supports only `en` and its upstream always fails. -/
def envTrans : Env :=
  { envAuto with
    translate := fun _ _ _ => .ok ⟨"hola", "es"⟩
    lang_name_to_code := [("Spanish", "es"), ("English", "en")]
    languages := [("es", "spanish"), ("en", "english")]
    tts_supported := ["en"]
    gtts := fun _ _ => .error "tts down" }

/-- A session state whose input text is whitespace only. -/
def stateBlank : SessionState :=
  { state0 with input_text := "   ", translated_text := "old", target_lang := "Spanish" }

/-- A session state ready for a successful translation whose requested source
code (`fr`) differs from the source the service will report (`es`). -/
def stateTrans : SessionState :=
  { state0 with
      input_text := " hello "
      target_lang := "Spanish"
      detected_lang_code := "fr" }

/-- A session state whose non-blank target-language name is absent from the
name-to-code table. -/
def stateMissing : SessionState :=
  { state0 with input_text := "bonjour", target_lang := "Klingon" }

/-- Resolving the Auto Detect selection yields the sentinel. -/
theorem resolveSelectedCode_auto (env : Env) :
    resolveSelectedCode env "Auto Detect" = "auto" := by
  unfold resolveSelectedCode
  rw [if_pos rfl]

/-- Resolving any other selection is the defaulted table lookup. -/
theorem resolveSelectedCode_explicit (env : Env) (selected : String)
    (h : selected ≠ "Auto Detect") :
    resolveSelectedCode env selected = dictGet env.lang_name_to_code selected "auto" := by
  unfold resolveSelectedCode
  rw [if_neg h]

/-- When a `dictGet` with default returns a value other than the default,
the underlying lookup found exactly that value. -/
theorem dictGet_ne_default (d : List (String × String)) (k : String) (dflt : String)
    (h : dictGet d k dflt ≠ dflt) : dictLookup d k = some (dictGet d k dflt) := by
  unfold dictGet at h
  cases hl : dictLookup d k with
  | none => rw [hl] at h; simp at h
  | some v => simp [dictGet, hl]

/-- The remap never manufactures an `auto` base from a non-auto base. -/
theorem baseCode_remap_ne_auto (c : String) (hc : baseCode c ≠ "auto") :
    baseCode (remapForRecognition c) ≠ "auto" := by
  unfold remapForRecognition
  by_cases hte : c = "te"
  · rw [if_pos hte]
    decide
  · rw [if_neg hte]
    exact hc

/-- A successful auto branch stores the detected code, which is non-auto as
long as the detector never reports the sentinel. -/
theorem recognizeAuto_ok_code (env : Env) (s : SessionState) (sample : AudioSample)
    (hdet : ∀ t r, env.detect t = .ok r → r.lang ≠ "auto") :
    (recognizeAuto env s sample).outcome = .ok →
    (recognizeAuto env s sample).state.detected_lang_code ≠ "auto" := by
  unfold recognizeAuto
  cases hrec1 : env.recognize_google sample none with
  | error e => cases e <;> simp [recErrorOutcome]
  | ok raw =>
    dsimp only
    cases hd : env.detect raw with
    | error msg => simp
    | ok d =>
      dsimp only
      cases hrec2 : env.recognize_google sample (some d.lang) with
      | ok text => exact fun _ => hdet raw d hd
      | error e2 => exact fun _ => hdet raw d hd

/-- A successful explicit branch stores the base code of the remapped
selection. -/
theorem recognizeExplicit_ok_code (env : Env) (s : SessionState)
    (sample : AudioSample) (c : String) :
    (recognizeExplicit env s sample c).outcome = .ok →
    (recognizeExplicit env s sample c).state.detected_lang_code =
      baseCode (remapForRecognition c) := by
  unfold recognizeExplicit
  dsimp only
  cases h : env.recognize_google sample (some (remapForRecognition c)) with
  | error e => cases e <;> simp [recErrorOutcome]
  | ok text => exact fun _ => rfl

/-- C1: in auto mode (for every captured sample, first-pass recognition
success and detection success), the resolver performs exactly the call
sequence capture, recognition with no hint, detection on the raw transcript,
recognition with the detected code; it succeeds, stores the detected code,
and stores the second-pass transcript when the second pass succeeds and the
raw first-pass transcript when the second pass fails for any reason. -/
theorem auto_mode_protocol (env : Env) (s : SessionState)
    (sample : AudioSample) (raw : String) (d : DetectResult)
    (hauto : s.input_lang = "Auto Detect")
    (hcap : env.capture listenRequest = .ok sample)
    (hrec1 : env.recognize_google sample none = .ok raw)
    (hdet : env.detect raw = .ok d) :
    (listen_speech env s).calls =
      [.capture listenRequest, .recognize none, .detectLang raw,
        .recognize (some d.lang)] ∧
    (listen_speech env s).outcome = .ok ∧
    (listen_speech env s).state.detected_lang_code = d.lang ∧
    (listen_speech env s).state.input_text =
      (match env.recognize_google sample (some d.lang) with
        | .ok t => t
        | .error _ => raw) := by
  unfold listen_speech
  rw [hcap]
  dsimp only
  rw [hauto, resolveSelectedCode_auto]
  have hne : ¬("auto" ≠ "auto") := by simp
  rw [if_neg hne]
  unfold recognizeAuto
  rw [hrec1]
  dsimp only
  rw [hdet]
  dsimp only
  cases h2 : env.recognize_google sample (some d.lang) <;> simp

/-- Witness for C1 at a concrete environment and the fresh session state. -/
theorem auto_mode_protocol_witness :
    (listen_speech envAuto state0).calls =
      [.capture listenRequest, .recognize none, .detectLang "hola",
        .recognize (some "es")] ∧
    (listen_speech envAuto state0).outcome = .ok ∧
    (listen_speech envAuto state0).state.detected_lang_code = "es" ∧
    (listen_speech envAuto state0).state.input_text = "hola" := by
  have h := auto_mode_protocol envAuto state0 ⟨0⟩ "hola" ⟨"es", 99⟩ rfl rfl rfl rfl
  exact h

/-- C2: for every explicit selection (the selected name resolves through
`LANG_NAME_TO_CODE` to a code other than the sentinel), recognition is
invoked exactly once, with the selected code after the remap table is
applied; when recognition succeeds, the stored resolved code is the base of
the sent code (any country suffix stripped), so the remapped `te` selection
still stores the plain `te`. -/
theorem explicit_selection_resolution (env : Env) (s : SessionState)
    (sample : AudioSample) (c : String)
    (hsel : s.input_lang ≠ "Auto Detect")
    (hlook : dictGet env.lang_name_to_code s.input_lang "auto" = c)
    (hc : c ≠ "auto")
    (hcap : env.capture listenRequest = .ok sample) :
    ((listen_speech env s).calls.filter isRecognizeCall) =
      [.recognize (some (remapForRecognition c))] ∧
    (∀ text, env.recognize_google sample (some (remapForRecognition c)) = .ok text →
      (listen_speech env s).outcome = .ok ∧
      (listen_speech env s).state.detected_lang_code =
        baseCode (remapForRecognition c) ∧
      (listen_speech env s).state.input_text = text) ∧
    (c = "te" → baseCode (remapForRecognition c) = "te") := by
  unfold listen_speech
  rw [hcap]
  dsimp only
  rw [resolveSelectedCode_explicit env s.input_lang hsel, hlook, if_pos hc]
  unfold recognizeExplicit
  dsimp only
  refine ⟨?_, ?_, ?_⟩
  · cases h2 : env.recognize_google sample (some (remapForRecognition c)) <;>
      simp [isRecognizeCall, List.filter]
  · intro text htext
    rw [htext]
    exact ⟨rfl, rfl, rfl⟩
  · intro hte
    subst hte
    decide

/-- Witness for C2: with Telugu selected, recognition is called once with
`te-IN` and the stored resolved code is the plain `te`. -/
theorem explicit_selection_resolution_witness :
    ((listen_speech envTelugu stateTelugu).calls.filter isRecognizeCall) =
      [.recognize (some "te-IN")] ∧
    (listen_speech envTelugu stateTelugu).outcome = .ok ∧
    (listen_speech envTelugu stateTelugu).state.detected_lang_code = "te" ∧
    (listen_speech envTelugu stateTelugu).state.input_text = "namaste" := by
  have h := explicit_selection_resolution envTelugu stateTelugu ⟨0⟩ "te"
    (by decide) rfl (by decide) rfl
  have h2 := h.2.1 "namaste" rfl
  refine ⟨h.1, h2.1, ?_, h2.2.2⟩
  rw [← h.2.2 rfl]
  exact h2.2.1

/-- C3: for every run of the resolver that completes successfully (in any
branch, including the auto-mode fallback), the stored resolved code is never
the `auto` sentinel — provided the external language table maps no name to a
code whose base is `auto` and language detection never reports `auto` (both
hold of the real googletrans tables, which contain no `auto` entry). -/
theorem resolved_code_never_auto (env : Env) (s : SessionState)
    (htable : ∀ k v, dictLookup env.lang_name_to_code k = some v →
      baseCode v ≠ "auto")
    (hdet : ∀ t r, env.detect t = .ok r → r.lang ≠ "auto") :
    (listen_speech env s).outcome = .ok →
    (listen_speech env s).state.detected_lang_code ≠ "auto" := by
  unfold listen_speech
  cases hcap : env.capture listenRequest with
  | error e => simp
  | ok sample =>
    dsimp only
    by_cases hauto : resolveSelectedCode env s.input_lang = "auto"
    · rw [hauto]
      have hne : ¬("auto" ≠ "auto") := by simp
      rw [if_neg hne]
      exact recognizeAuto_ok_code env s sample hdet
    · rw [if_pos hauto]
      intro hok
      rw [recognizeExplicit_ok_code env s sample _ hok]
      by_cases hsel : s.input_lang = "Auto Detect"
      · exfalso
        apply hauto
        rw [hsel]
        exact resolveSelectedCode_auto env
      · rw [resolveSelectedCode_explicit env s.input_lang hsel] at hauto ⊢
        have hfound := dictGet_ne_default env.lang_name_to_code s.input_lang "auto" hauto
        exact baseCode_remap_ne_auto _ (htable s.input_lang _ hfound)

/-- Witness for C3 at the auto-flow sample environment: its language table is
empty (so the table hypothesis is vacuous) and its detector always reports
`es`. -/
theorem resolved_code_never_auto_witness :
    (listen_speech envAuto state0).state.detected_lang_code ≠ "auto" :=
  resolved_code_never_auto envAuto state0
    (fun k v h => by simp [dictLookup, List.find?] at h)
    (fun t r h => by
      have hr : (⟨"es", 99⟩ : DetectResult) = r := Except.ok.inj h
      rw [← hr]
      decide)
    rfl

/-- C8: for every environment and session state, when the capture bound for
speech to begin expires, `listen_speech` reports the no-speech error and the
entire prior session state (input text, translated text, detected language
code and history) is unchanged. -/
theorem no_speech_frame (env : Env) (s : SessionState)
    (h : env.capture listenRequest = .error .startTimeout) :
    (listen_speech env s).outcome = .noSpeechDetected ∧
    (listen_speech env s).state = s := by
  unfold listen_speech
  rw [h]
  exact ⟨rfl, rfl⟩

/-- Witness for C8 at a concrete environment and session state. -/
theorem no_speech_frame_witness :
    (listen_speech envTimeout state0).outcome = .noSpeechDetected ∧
    (listen_speech envTimeout state0).state = state0 :=
  no_speech_frame envTimeout state0 rfl

/-- C9: the capture request issued by `listen_speech` carries both bounds —
the wait for speech to begin (configured to 10 seconds at the call site) and
the wait for speech to end (configured to 25 seconds); the capture interface
accepts any pair of bound values; and the expiry of either bound (either
capture-error constructor) makes the operation report the no-speech error. -/
theorem capture_bounds (env : Env) (s : SessionState) :
    listenRequest.timeoutSeconds = 10 ∧
    listenRequest.phraseTimeLimitSeconds = 25 ∧
    (∀ t p, ∃ req : CaptureRequest,
      req.timeoutSeconds = t ∧ req.phraseTimeLimitSeconds = p) ∧
    (∀ e : CaptureError, env.capture listenRequest = .error e →
      (listen_speech env s).outcome = .noSpeechDetected) := by
  refine ⟨rfl, rfl, fun t p => ⟨⟨0, t, p⟩, rfl, rfl⟩, fun e he => ?_⟩
  unfold listen_speech
  rw [he]

/-- Witness for C9: the expiry of the phrase bound at a concrete environment
also yields the no-speech outcome. -/
theorem capture_bounds_witness :
    listenRequest.timeoutSeconds = 10 ∧
    (listen_speech envPhraseTimeout state0).outcome = .noSpeechDetected :=
  ⟨(capture_bounds envPhraseTimeout state0).1,
    (capture_bounds envPhraseTimeout state0).2.2.2 .phraseTimeout rfl⟩

/-- C4: for every input text that strips to empty, `translate_text` warns
about missing input, appends no history entry and leaves the whole session
state (in particular the translated text) unchanged, with no upstream call. -/
theorem empty_input_no_translation (env : Env) (s : SessionState)
    (h : pyStrip s.input_text = "") :
    (translate_text env s).outcome = .noInputWarning ∧
    (translate_text env s).state = s ∧
    (translate_text env s).calls = [] := by
  unfold translate_text
  dsimp only
  rw [if_pos h]
  exact ⟨rfl, rfl, rfl⟩

/-- Witness for C4 at a whitespace-only input text. -/
theorem empty_input_no_translation_witness :
    (translate_text envTrans stateBlank).outcome = .noInputWarning ∧
    (translate_text envTrans stateBlank).state = stateBlank ∧
    (translate_text envTrans stateBlank).calls = [] :=
  empty_input_no_translation envTrans stateBlank (by decide)

/-- C5: every successful translation appends exactly one history entry, and
that entry's source-language label is computed from the source code the
upstream service reported (`result.src`), not from the code that was sent in
the request. -/
theorem successful_translation_history (env : Env) (s : SessionState)
    (dest_code : String) (result : TranslateServiceResult)
    (hin : pyStrip s.input_text ≠ "")
    (htgt : pyStrip s.target_lang ≠ "")
    (hlook : dictLookup env.lang_name_to_code (pyStrip s.target_lang) = some dest_code)
    (hsvc : env.translate (pyStrip s.input_text) s.detected_lang_code dest_code
      = .ok result) :
    (translate_text env s).outcome = .ok ∧
    (translate_text env s).state.translation_history =
      s.translation_history ++
        [⟨env.now, pyTitle (dictGet env.languages result.src "Unknown"),
          pyTitle (dictGet env.languages dest_code "Unknown"),
          pyStrip s.input_text, result.text⟩] ∧
    (translate_text env s).state.translated_text = result.text := by
  unfold translate_text
  dsimp only
  rw [if_neg hin, if_neg htgt, hlook]
  dsimp only
  rw [hsvc]
  exact ⟨rfl, rfl, rfl⟩

/-- Witness for C5: the requested source code is `fr`, the service reports
`es`, and the single appended entry is labelled Spanish. -/
theorem successful_translation_history_witness :
    (translate_text envTrans stateTrans).outcome = .ok ∧
    (translate_text envTrans stateTrans).state.translation_history =
      [⟨"2024-01-01 00:00:00", "Spanish", "Spanish", "hello", "hola"⟩] ∧
    (translate_text envTrans stateTrans).state.translated_text = "hola" := by
  have h := successful_translation_history envTrans stateTrans "es" ⟨"hola", "es"⟩
    (by decide) (by decide) (by decide) rfl
  exact h

/-- C10: for every translation request whose target name is non-blank but
absent from the name-to-code table, `translate_text` escapes with the
uncaught KeyError of line 100 before any upstream call: the outcome is the
crash, not the no-target warning and not the wrapped service error, and the
state is untouched. -/
theorem unknown_target_keyerror (env : Env) (s : SessionState)
    (hin : pyStrip s.input_text ≠ "")
    (htgt : pyStrip s.target_lang ≠ "")
    (hmiss : dictLookup env.lang_name_to_code (pyStrip s.target_lang) = none) :
    (translate_text env s).outcome = .keyErrorCrash (pyStrip s.target_lang) ∧
    (translate_text env s).calls = [] ∧
    (translate_text env s).state = s ∧
    (translate_text env s).outcome ≠ .noTargetWarning ∧
    (∀ msg, (translate_text env s).outcome ≠ .translationError msg) := by
  unfold translate_text
  dsimp only
  rw [if_neg hin, if_neg htgt, hmiss]
  exact ⟨rfl, rfl, rfl, by simp, fun msg => by simp⟩

/-- Witness for C10 at the absent target name Klingon. -/
theorem unknown_target_keyerror_witness :
    (translate_text envTrans stateMissing).outcome = .keyErrorCrash "Klingon" ∧
    (translate_text envTrans stateMissing).calls = [] ∧
    (translate_text envTrans stateMissing).state = stateMissing := by
  have h := unknown_target_keyerror envTrans stateMissing (by decide) (by decide) rfl
  exact ⟨h.1, h.2.1, h.2.2.1⟩

/-- C6: synthesis for a code outside the supported set warns and never calls
the upstream service; for a supported code, a single upstream failure
surfaces as the synthesis error after exactly one call (no retry). -/
theorem synthesis_gating (env : Env) (s : SessionState) (text : String)
    (lang_code : String) :
    (lang_code ∉ env.tts_supported →
      (speak_text env s text lang_code).outcome = .unsupportedWarning lang_code ∧
      (speak_text env s text lang_code).calls = [] ∧
      (speak_text env s text lang_code).state = s) ∧
    (∀ msg, lang_code ∈ env.tts_supported →
      env.gtts text lang_code = .error msg →
      (speak_text env s text lang_code).outcome = .ttsError msg ∧
      (speak_text env s text lang_code).calls = [.synthesize text lang_code]) := by
  constructor
  · intro hns
    unfold speak_text
    rw [if_neg hns]
    exact ⟨rfl, rfl, rfl⟩
  · intro msg hmem herr
    unfold speak_text
    rw [if_pos hmem, herr]
    exact ⟨rfl, rfl⟩

/-- Witness for C6: the unsupported code `xx` warns without a call, and the
supported code `en` surfaces the single upstream failure. -/
theorem synthesis_gating_witness :
    ((speak_text envTrans state0 "hi" "xx").outcome = .unsupportedWarning "xx" ∧
      (speak_text envTrans state0 "hi" "xx").calls = [] ∧
      (speak_text envTrans state0 "hi" "xx").state = state0) ∧
    ((speak_text envTrans state0 "hi" "en").outcome = .ttsError "tts down" ∧
      (speak_text envTrans state0 "hi" "en").calls = [.synthesize "hi" "en"]) :=
  ⟨(synthesis_gating envTrans state0 "hi" "xx").1 (by decide),
    (synthesis_gating envTrans state0 "hi" "en").2 "tts down" (by decide) rfl⟩

/-- The explicit recognition branch never touches the history. -/
theorem recognizeExplicit_history (env : Env) (s : SessionState)
    (sample : AudioSample) (c : String) :
    (recognizeExplicit env s sample c).state.translation_history =
      s.translation_history := by
  unfold recognizeExplicit
  dsimp only
  cases h : env.recognize_google sample (some (remapForRecognition c)) <;> rfl

/-- The auto recognition branch never touches the history. -/
theorem recognizeAuto_history (env : Env) (s : SessionState) (sample : AudioSample) :
    (recognizeAuto env s sample).state.translation_history =
      s.translation_history := by
  unfold recognizeAuto
  cases h1 : env.recognize_google sample none with
  | error e => rfl
  | ok raw =>
    dsimp only
    cases h2 : env.detect raw with
    | error msg => rfl
    | ok d =>
      dsimp only
      cases h3 : env.recognize_google sample (some d.lang) <;> rfl

/-- Speech capture and recognition never touch the history. -/
theorem listen_speech_history (env : Env) (s : SessionState) :
    (listen_speech env s).state.translation_history = s.translation_history := by
  unfold listen_speech
  cases hcap : env.capture listenRequest with
  | error e => rfl
  | ok sample =>
    dsimp only
    by_cases h : resolveSelectedCode env s.input_lang ≠ "auto"
    · rw [if_pos h]
      exact recognizeExplicit_history env s sample _
    · rw [if_neg h]
      exact recognizeAuto_history env s sample

/-- Translation either keeps the history or appends a suffix to it. -/
theorem translate_text_history (env : Env) (s : SessionState) :
    ∃ t, (translate_text env s).state.translation_history =
      s.translation_history ++ t := by
  unfold translate_text
  dsimp only
  by_cases h1 : pyStrip s.input_text = ""
  · rw [if_pos h1]
    exact ⟨[], by simp⟩
  · rw [if_neg h1]
    by_cases h2 : pyStrip s.target_lang = ""
    · rw [if_pos h2]
      exact ⟨[], by simp⟩
    · rw [if_neg h2]
      cases h3 : dictLookup env.lang_name_to_code (pyStrip s.target_lang) with
      | none => exact ⟨[], by simp⟩
      | some dest =>
        dsimp only
        cases h4 : env.translate (pyStrip s.input_text) s.detected_lang_code dest with
        | error msg => exact ⟨[], by simp⟩
        | ok result => exact ⟨_, rfl⟩

/-- Synthesis never touches the history. -/
theorem speak_text_history (env : Env) (s : SessionState) (text : String)
    (lang_code : String) :
    (speak_text env s text lang_code).state.translation_history =
      s.translation_history := by
  unfold speak_text
  by_cases hmem : lang_code ∈ env.tts_supported
  · rw [if_pos hmem]
    cases h : env.gtts text lang_code <;> rfl
  · rw [if_neg hmem]

/-- The speak-input button never touches the history. -/
theorem speak_input_history (env : Env) (s : SessionState) :
    (speak_input env s).state.translation_history = s.translation_history := by
  unfold speak_input
  dsimp only
  by_cases h : pyStrip s.input_text ≠ "" ∧ s.detected_lang_code ∈ env.tts_supported
  · rw [if_pos h]
    exact speak_text_history env s _ _
  · rw [if_neg h]

/-- The speak-output button never touches the history. -/
theorem speak_output_history (env : Env) (s : SessionState) :
    (speak_output env s).state.translation_history = s.translation_history := by
  unfold speak_output
  dsimp only
  by_cases h : pyStrip s.translated_text ≠ "" ∧ pyStrip s.target_lang ≠ ""
  · rw [if_pos h]
    cases hl : dictLookup env.lang_name_to_code (pyStrip s.target_lang) with
    | none => rfl
    | some dest => exact speak_text_history env s _ _
  · rw [if_neg h]

/-- Viewing the history never touches it. -/
theorem view_history_history (s : SessionState) :
    (view_history s).2.translation_history = s.translation_history := by
  unfold view_history
  split <;> rfl

/-- C7: the history log is append-only — after every operation of the
program, the prior sequence of records is an initial segment of the new one
(the new history is the old one followed by some suffix), so no record is
ever mutated or removed. -/
theorem history_append_only (env : Env) (op : Operation) (s : SessionState) :
    ∃ t, (stepState env op s).translation_history = s.translation_history ++ t := by
  cases op with
  | speakButton =>
    exact ⟨[], by rw [stepState, listen_speech_history, List.append_nil]⟩
  | translateButton => exact translate_text_history env s
  | speakInputButton =>
    exact ⟨[], by rw [stepState, speak_input_history, List.append_nil]⟩
  | speakOutputButton =>
    exact ⟨[], by rw [stepState, speak_output_history, List.append_nil]⟩
  | viewHistoryButton =>
    exact ⟨[], by rw [stepState, view_history_history, List.append_nil]⟩

end VoiceTranslator
